import Mathlib

/-!
Shallow embedding of the "Entries API" CRUD service (src/main.py).

The service keeps one table `entries` (SERIAL id, title VARCHAR(200) NOT NULL,
several nullable text columns, three JSONB columns, two timestamps) and maps
five HTTP endpoints onto single SQL statements.  We model the table as a list
of rows in insertion order together with the SERIAL counter, timestamps as
natural numbers, and each request handler as a pure function from the database
state (and the current time) to an HTTP-level result paired with the new state.
-/

/-- JSONB sub-object `social` (pydantic `SocialModel`): five optional keys. -/
structure SocialModel where
  instagram : Option String := none
  facebook : Option String := none
  snapchat : Option String := none
  telegram : Option String := none
  tiktok : Option String := none
deriving DecidableEq, Repr

/-- JSONB sub-object `type` (pydantic `TypeModel`): optional `main`/`sub`. -/
structure TypeModel where
  main : Option String := none
  sub : Option String := none
deriving DecidableEq, Repr

/-- One persisted row of the `entries` table.  `created_at`/`updated_at` are
modelled as `Nat` timestamps.  The JSONB columns `social` and `type` always
hold an object (the code writes `x.dict() if x else \x7b\x7d`), so they are
modelled as the sub-object type with the empty object as the all-`none`
value; `mobiles` may hold JSON `null` or an array, hence `Option`. -/
structure Row where
  id : Nat
  title : String
  description : Option String
  profile_image : Option String
  location : Option String
  mobiles : Option (List String)
  reaching_video : Option String
  social : SocialModel
  type : TypeModel
  created_at : Nat
  updated_at : Nat
deriving DecidableEq, Repr

/-- Database state: rows in insertion order plus the SERIAL counter
(Postgres SERIAL starts at 1). -/
structure DB where
  rows : List Row
  nextId : Nat
deriving DecidableEq, Repr

def initDB : DB := { rows := [], nextId := 1 }

/-- Datastore-level errors that the modelled SQL statements can raise:
the `NOT NULL` constraint and the `VARCHAR(200)` length bound on `title`
declared by `create_tables`. -/
inductive DbError where
  | notNullViolation (col : String)
  | valueTooLong (col : String)
deriving DecidableEq, Repr

def DbError.message : DbError → String
  | .notNullViolation col => "null value in column " ++ col ++ " violates not-null constraint"
  | .valueTooLong _ => "value too long for type character varying(200)"

/-- Outcome of one request as seen at the HTTP boundary.
`ok` is a 200 response with a body, `httpError` is a raised `HTTPException`
(status code and detail), and `unhandled` is an exception that escaped the
handler (no try/except in the endpoint), reaching the framework with the
given message. -/
inductive HResult (α : Type) where
  | ok (body : α)
  | httpError (status : Nat) (detail : String)
  | unhandled (msg : String)
deriving DecidableEq, Repr

/-- The three states a field of an incoming JSON payload can be in, as pydantic
sees them: absent from the payload, present with value `null`, or present with
a proper value.  `dict(exclude_unset=True)` keeps exactly the non-`unset`
fields. -/
inductive FieldVal (α : Type) where
  | unset
  | setNull
  | set (a : α)
deriving DecidableEq, Repr

def FieldVal.isSet {α : Type} : FieldVal α → Bool
  | .unset => false
  | _ => true

/-- Wire-level body of `POST /entries`, before pydantic validation. -/
structure RawEntryCreate where
  title : FieldVal String := .unset
  description : FieldVal String := .unset
  profile_image : FieldVal String := .unset
  location : FieldVal String := .unset
  mobiles : FieldVal (List String) := .unset
  reaching_video : FieldVal String := .unset
  social : FieldVal SocialModel := .unset
  type : FieldVal TypeModel := .unset
deriving DecidableEq, Repr

/-- Pydantic model `EntryCreate` (= `EntryBase`): `title` is required, the
rest are optional with the declared defaults. -/
structure EntryCreate where
  title : String
  description : Option String := none
  profile_image : Option String := none
  location : Option String := none
  mobiles : Option (List String) := some []
  reaching_video : Option String := none
  social : Option SocialModel := some {}
  type : Option TypeModel := some {}
deriving DecidableEq, Repr

/-- Pydantic parsing of one `Optional[...]` field with default `d`:
absent uses the default, explicit `null` gives `None`, a value is kept. -/
def parseOptField {α : Type} (d : Option α) : FieldVal α → Option α
  | .unset => d
  | .setNull => none
  | .set v => some v

/-- Pydantic validation of the create body against `EntryCreate`:
a missing or `null` `title` is a validation error (`title : str` is a
required, non-nullable field); every other field is optional.  Note that
the empty string is a legal `str`, so `title = ""` parses successfully. -/
def parseEntryCreate (raw : RawEntryCreate) : Option EntryCreate :=
  match raw.title with
  | .unset => none
  | .setNull => none
  | .set v => some
      { title := v
        description := parseOptField none raw.description
        profile_image := parseOptField none raw.profile_image
        location := parseOptField none raw.location
        mobiles := parseOptField (some []) raw.mobiles
        reaching_video := parseOptField none raw.reaching_video
        social := parseOptField (some {}) raw.social
        type := parseOptField (some {}) raw.type }

/-- Pydantic model `EntryUpdate`: every field `Optional[...] = None`, so each
incoming field is independently absent / `null` / valued. -/
structure EntryUpdate where
  title : FieldVal String := .unset
  description : FieldVal String := .unset
  profile_image : FieldVal String := .unset
  location : FieldVal String := .unset
  mobiles : FieldVal (List String) := .unset
  reaching_video : FieldVal String := .unset
  social : FieldVal SocialModel := .unset
  type : FieldVal TypeModel := .unset
deriving DecidableEq, Repr

/-- `fields = new_data.dict(exclude_unset=True)`; `if not fields` checks that
no field of the payload was explicitly set. -/
def EntryUpdate.isEmpty (u : EntryUpdate) : Bool :=
  !(u.title.isSet || u.description.isSet || u.profile_image.isSet ||
    u.location.isSet || u.mobiles.isSet || u.reaching_video.isSet ||
    u.social.isSet || u.type.isSet)

/-- `INSERT INTO entries ... RETURNING *`: assigns the SERIAL id and the two
timestamps (`DEFAULT CURRENT_TIMESTAMP`), enforcing `VARCHAR(200)` on
`title`; JSONB values are written as in `create_entry`
(`Json(entry.mobiles)`, `entry.social.dict() if entry.social else \x7b\x7d`,
likewise for `type`). -/
def dbInsert (db : DB) (t : Nat) (e : EntryCreate) : Except DbError (Row × DB) :=
  if e.title.length ≤ 200 then
    let row : Row :=
      { id := db.nextId
        title := e.title
        description := e.description
        profile_image := e.profile_image
        location := e.location
        mobiles := e.mobiles
        reaching_video := e.reaching_video
        social := e.social.getD {}
        type := e.type.getD {}
        created_at := t
        updated_at := t }
    .ok (row, { rows := db.rows ++ [row], nextId := db.nextId + 1 })
  else
    .error (.valueTooLong "title")

/-- `POST /entries` handler body (`create_entry`): runs the insert; the
try/except catches any datastore error and re-raises it as
`HTTPException(500, str(e))`. -/
def create_entry (db : DB) (t : Nat) (entry : EntryCreate) : HResult Row × DB :=
  match dbInsert db t entry with
  | .error e => (.httpError 500 (DbError.message e), db)
  | .ok (row, db') => (.ok row, db')

/-- Modelled from the spec: the status code that the framework assigns to a
request-body or query-parameter validation failure is framework code not
present in this repository; the spec maps `ValidationError`
(malformed/missing required payload field) to 400. -/
def validationStatus : Nat := 400

/-- `POST /entries` including request validation: the body is parsed against
`EntryCreate` first; a validation failure never reaches the handler. -/
def POST_entries (db : DB) (t : Nat) (raw : RawEntryCreate) : HResult Row × DB :=
  match parseEntryCreate raw with
  | none => (.httpError validationStatus "validation error", db)
  | some entry => create_entry db t entry

/-- Sorted insertion used to model `ORDER BY id DESC`: keeps the list ordered
by descending `id`. -/
def insertDescById (r : Row) : List Row → List Row
  | [] => [r]
  | x :: xs => if x.id ≤ r.id then r :: x :: xs else x :: insertDescById r xs

/-- `SELECT * FROM entries ORDER BY id DESC`. -/
def sortByIdDesc : List Row → List Row
  | [] => []
  | x :: xs => insertDescById x (sortByIdDesc xs)

/-- `Query(100, ge=1, le=1000)`: absent means the default 100, out-of-range
values are a validation failure. -/
def validateLimit : Option Int → Option Nat
  | none => some 100
  | some v => if 1 ≤ v ∧ v ≤ 1000 then some v.toNat else none

/-- `Query(0, ge=0)`: absent means the default 0, negative values are a
validation failure. -/
def validateOffset : Option Int → Option Nat
  | none => some 0
  | some v => if 0 ≤ v then some v.toNat else none

/-- `GET /entries` handler (`get_all_entries`):
`SELECT * FROM entries ORDER BY id DESC LIMIT limit OFFSET offset`. -/
def get_all_entries (db : DB) (limit offset : Option Int) : HResult (List Row) × DB :=
  match validateLimit limit, validateOffset offset with
  | some l, some o => (.ok (((sortByIdDesc db.rows).drop o).take l), db)
  | _, _ => (.httpError validationStatus "validation error", db)

/-- `GET /entries/\x7bentry_id\x7d` handler (`get_entry`):
`SELECT * FROM entries WHERE id = %s`, 404 when no row matches. -/
def get_entry (db : DB) (entry_id : Nat) : HResult Row × DB :=
  match db.rows.find? (fun r => r.id == entry_id) with
  | none => (.httpError 404 "Entry not found", db)
  | some r => (.ok r, db)

/-- `SET title = %s` for one explicitly present `title` field: explicit `null`
violates `NOT NULL`, a value is bounded by `VARCHAR(200)`. -/
def updTitle (old : String) : FieldVal String → Except DbError String
  | .unset => .ok old
  | .setNull => .error (.notNullViolation "title")
  | .set v => if v.length ≤ 200 then .ok v else .error (.valueTooLong "title")

/-- `SET col = %s` for a nullable column: an absent field keeps the old value
(it is not in the SET clause), `null` clears it, a value replaces it. -/
def updOpt {α : Type} (old : Option α) : FieldVal α → Option α
  | .unset => old
  | .setNull => none
  | .set v => some v

/-- Parameter binding of the UPDATE statement.  Unlike `create_entry`, which
wraps the JSONB values in `Json(...)`, `update_entry` appends `social`/`type`
as raw Python dicts (`v.dict() if v else \x7b\x7d`) and `mobiles` as a raw
Python list.  psycopg3 cannot adapt a bare dict at all, so an explicitly-set
`social` or `type` (value or `null`, both become dicts) raises client-side
before the statement is sent; a list binds as a Postgres array, which cannot
be assigned to the JSONB `mobiles` column, raising when the statement is
planned.  Both errors fire whether or not any row matches the id.  An
explicit `null` for `mobiles` binds as SQL NULL and is fine.  Returns the
message of the first error raised (client-side adaptation precedes the
server), or `none` when every parameter binds. -/
def bindUpdateParams (u : EntryUpdate) : Option String :=
  if u.social.isSet || u.type.isSet then
    some "cannot adapt type dict"
  else
    match u.mobiles with
    | .set _ => some "column mobiles is of type jsonb but expression is of type text[]"
    | _ => none

/-- The `UPDATE entries SET <set fields>, updated_at = CURRENT_TIMESTAMP`
statement applied to one matched row, with every parameter bound (see
`bindUpdateParams`: `social`/`type` are never explicitly set here and
`mobiles` at most to `null`): only explicitly present fields are in the SET
clause, so `social`, `type` and `created_at` are never assigned. -/
def applyUpdate (r : Row) (u : EntryUpdate) (t : Nat) : Except DbError Row :=
  match updTitle r.title u.title with
  | .error e => .error e
  | .ok newTitle => .ok
      { r with
        title := newTitle
        description := updOpt r.description u.description
        profile_image := updOpt r.profile_image u.profile_image
        location := updOpt r.location u.location
        mobiles := updOpt r.mobiles u.mobiles
        reaching_video := updOpt r.reaching_video u.reaching_video
        updated_at := t }

/-- `PUT /entries/\x7bentry_id\x7d` handler (`update_entry`): the empty-payload
check comes first (400); then `cur.execute` binds the parameters — a
binding failure (raw dict / list-into-JSONB, see `bindUpdateParams`)
escapes the handler before any row is considered; an executed statement
that matches no row yields 404, and a constraint violation on the matched
row escapes the handler (there is no try/except in this endpoint). -/
def update_entry (db : DB) (t : Nat) (entry_id : Nat) (new_data : EntryUpdate) :
    HResult Row × DB :=
  if new_data.isEmpty then
    (.httpError 400 "No fields to update", db)
  else
    match bindUpdateParams new_data with
    | some msg => (.unhandled msg, db)
    | none =>
      match db.rows.find? (fun r => r.id == entry_id) with
      | none => (.httpError 404 "Entry not found", db)
      | some r =>
        match applyUpdate r new_data t with
        | .error e => (.unhandled (DbError.message e), db)
        | .ok r' =>
          (.ok r', { db with rows := db.rows.map (fun x => if x.id == entry_id then r' else x) })

/-- `DELETE /entries/\x7bentry_id\x7d` handler (`delete_entry`):
`DELETE FROM entries WHERE id = %s RETURNING id`, 404 when no row was
deleted. -/
def delete_entry (db : DB) (entry_id : Nat) : HResult String × DB :=
  let db' : DB := { db with rows := db.rows.filter (fun r => !(r.id == entry_id)) }
  if db.rows.any (fun r => r.id == entry_id) then
    (.ok "Entry deleted successfully", db')
  else
    (.httpError 404 "Entry not found", db')

deriving instance DecidableEq for Except

/-- Trace of one call to `get_db_connection`: its outcome, how many
`psycopg.connect` attempts were made, and the `time.sleep` durations in
order. -/
structure ConnAttemptLog where
  result : Except String Unit
  attempts : Nat
  sleeps : List Nat
deriving DecidableEq, Repr

/-- The `for attempt in range(max_retries)` loop of `get_db_connection`:
`connect i` is the outcome of the `psycopg.connect` call on iteration `i`.
On failure, if `attempt < max_retries - 1` the loop sleeps 5 seconds and
retries, otherwise it re-raises the last error.  `remaining` is the number
of loop iterations left (`max_retries - attempt`); the fuel-exhausted case
is unreachable because the last iteration always returns or raises. -/
def retryLoop (connect : Nat → Except String Unit) (max_retries : Nat) :
    Nat → Nat → ConnAttemptLog
  | _, 0 => { result := .error "loop exhausted", attempts := 0, sleeps := [] }
  | attempt, remaining + 1 =>
    match connect attempt with
    | .ok _ => { result := .ok (), attempts := 1, sleeps := [] }
    | .error e =>
      if attempt < max_retries - 1 then
        let rest := retryLoop connect max_retries (attempt + 1) remaining
        { result := rest.result, attempts := rest.attempts + 1, sleeps := 5 :: rest.sleeps }
      else
        { result := .error e, attempts := 1, sleeps := [] }

/-- `get_db_connection`: raises at once when `DATABASE_URL` is unset,
otherwise runs the retry loop with `max_retries = 3` starting at
attempt 0. -/
def get_db_connection (database_url : Option String)
    (connect : Nat → Except String Unit) : ConnAttemptLog :=
  match database_url with
  | none =>
    { result := .error "DATABASE_URL environment variable is not set"
      attempts := 0, sleeps := [] }
  | some _ => retryLoop connect 3 0 3

/-- `create_tables`, called from the startup lifespan: acquires a connection
and runs the idempotent `CREATE TABLE IF NOT EXISTS` (modelled as succeeding
whenever the connection succeeds).  Its `except` block catches every
exception and only prints it; the returned value is the printed error
message, if any — nothing is re-raised, so startup always proceeds. -/
def create_tables (database_url : Option String)
    (connect : Nat → Except String Unit) : Option String :=
  match (get_db_connection database_url connect).result with
  | .error e => some ("Error creating tables: " ++ e)
  | .ok _ => none

/-! ### Helper lemmas -/

theorem mem_insertDescById (r y : Row) (l : List Row) :
    y ∈ insertDescById r l ↔ y = r ∨ y ∈ l := by
  induction l with
  | nil => simp [insertDescById]
  | cons x xs ih =>
    by_cases hx : x.id ≤ r.id
    · simp [insertDescById, hx]
    · simp [insertDescById, hx, ih]
      tauto

theorem pairwise_insertDescById (r : Row) (l : List Row)
    (h : l.Pairwise (fun a b => b.id ≤ a.id)) :
    (insertDescById r l).Pairwise (fun a b => b.id ≤ a.id) := by
  induction l with
  | nil => simp [insertDescById]
  | cons x xs ih =>
    rw [List.pairwise_cons] at h
    by_cases hx : x.id ≤ r.id
    · rw [insertDescById, if_pos hx, List.pairwise_cons]
      refine ⟨?_, List.pairwise_cons.mpr h⟩
      intro y hy
      rcases List.mem_cons.mp hy with rfl | hy
      · exact hx
      · exact le_trans (h.1 y hy) hx
    · rw [insertDescById, if_neg hx, List.pairwise_cons]
      refine ⟨?_, ih h.2⟩
      intro y hy
      rcases (mem_insertDescById r y xs).mp hy with rfl | hy
      · omega
      · exact h.1 y hy

theorem pairwise_sortByIdDesc (l : List Row) :
    (sortByIdDesc l).Pairwise (fun a b => b.id ≤ a.id) := by
  induction l with
  | nil => simp [sortByIdDesc]
  | cons x xs ih => exact pairwise_insertDescById x (sortByIdDesc xs) ih

theorem find?_eq_none_of_absent (db : DB) (entry_id : Nat)
    (h : ∀ r ∈ db.rows, r.id ≠ entry_id) :
    db.rows.find? (fun r => r.id == entry_id) = none := by
  rw [List.find?_eq_none]
  intro x hx
  simpa using h x hx

/-! ### Claim theorems -/

/-- Claim C5: an update payload with zero explicitly-set fields is rejected
with status 400 ("No fields to update") and the database state is returned
unchanged: no row is mutated and no `updated_at` is refreshed. -/
theorem emptyUpdate_rejected_state_unchanged (db : DB) (t entry_id : Nat)
    (u : EntryUpdate) (h : u.isEmpty = true) :
    update_entry db t entry_id u = (.httpError 400 "No fields to update", db) := by
  simp [update_entry, h]

theorem emptyUpdate_rejected_state_unchanged_witness :
    update_entry initDB 7 1 {} = (.httpError 400 "No fields to update", initDB) :=
  emptyUpdate_rejected_state_unchanged initDB 7 1 {} (by decide)

/-- Claim C10: for every id — present in the store or not — an update payload
with zero explicitly-set fields yields the 400 "No fields to update" error
and never the 404 "Entry not found" error: the empty-payload check runs
before any existence check. -/
theorem emptyUpdate_precedes_notFound (db : DB) (t entry_id : Nat)
    (u : EntryUpdate) (h : u.isEmpty = true) :
    (update_entry db t entry_id u).1 = .httpError 400 "No fields to update" ∧
    (update_entry db t entry_id u).1 ≠ .httpError 404 "Entry not found" := by
  refine ⟨by simp [update_entry, h], ?_⟩
  simp [update_entry, h]

theorem emptyUpdate_precedes_notFound_witness :
    (update_entry initDB 0 5 {}).1 = .httpError 400 "No fields to update" ∧
    (update_entry initDB 0 5 {}).1 ≠ .httpError 404 "Entry not found" :=
  emptyUpdate_precedes_notFound initDB 0 5 {} (by decide)

/-- Claim C4 counterexample: at an id with no row in the store (id 1 in the
empty database), the empty update payload answers 400 "No fields to
update", and a payload explicitly setting `social` raises an unhandled
binding error (the raw dict cannot be adapted, id match or not) — neither
is the claimed 404 NotFound. -/
theorem absentId_notFound_counterexample :
    update_entry initDB 5 1 {} = (.httpError 400 "No fields to update", initDB) ∧
    (update_entry initDB 5 1 {}).1 ≠ .httpError 404 "Entry not found" ∧
    (update_entry initDB 5 1 { social := FieldVal.set {} }).1 =
      .unhandled "cannot adapt type dict" := by
  decide

/-- Claim C4 (amended): for every id with no row in the store, `get_entry`,
`update_entry` with a payload having at least one explicitly-set field and
whose parameters all bind (it does not set `social`/`type` and sets
`mobiles` at most to explicit `null`), and `delete_entry` each fail with
404 "Entry not found"; moreover after a successful delete, getting the
same id and deleting it again both return 404.  (With zero set fields the
400 empty-payload error takes precedence; a payload with unbindable
parameters raises an unhandled error regardless of the id.) -/
theorem absent_get_update_delete_notFound :
    (∀ db entry_id, (∀ r ∈ db.rows, r.id ≠ entry_id) →
      get_entry db entry_id = (.httpError 404 "Entry not found", db)) ∧
    (∀ db t entry_id u, u.isEmpty = false → bindUpdateParams u = none →
      (∀ r ∈ db.rows, r.id ≠ entry_id) →
      (update_entry db t entry_id u).1 = .httpError 404 "Entry not found") ∧
    (∀ db entry_id, (∀ r ∈ db.rows, r.id ≠ entry_id) →
      (delete_entry db entry_id).1 = .httpError 404 "Entry not found") ∧
    (∀ db entry_id m db1, delete_entry db entry_id = (.ok m, db1) →
      (get_entry db1 entry_id).1 = .httpError 404 "Entry not found" ∧
      (delete_entry db1 entry_id).1 = .httpError 404 "Entry not found") := by
  refine ⟨?_, ?_, ?_, ?_⟩
  · intro db entry_id h
    simp [get_entry, find?_eq_none_of_absent db entry_id h]
  · intro db t entry_id u hu hb h
    simp [update_entry, hu, hb, find?_eq_none_of_absent db entry_id h]
  · intro db entry_id h
    have hany : db.rows.any (fun r => r.id == entry_id) = false := by
      rw [List.any_eq_false]
      intro x hx
      simpa using h x hx
    simp [delete_entry, hany]
  · intro db entry_id m db1 hdel
    have hrows : ∀ r ∈ db1.rows, r.id ≠ entry_id := by
      simp only [delete_entry] at hdel
      by_cases hany : (db.rows.any fun r => r.id == entry_id) = true
      · rw [if_pos hany, Prod.mk.injEq] at hdel
        intro r hr
        rw [← hdel.2] at hr
        simp only [List.mem_filter] at hr
        simpa using hr.2
      · rw [if_neg hany] at hdel
        exact absurd (congrArg Prod.fst hdel) (by simp)
    have hany1 : db1.rows.any (fun r => r.id == entry_id) = false := by
      rw [List.any_eq_false]
      intro x hx
      simpa using hrows x hx
    constructor
    · simp [get_entry, find?_eq_none_of_absent db1 entry_id hrows]
    · simp [delete_entry, hany1]


theorem absent_get_update_delete_notFound_witness :
    (update_entry initDB 3 7 { title := FieldVal.set "x" }).1 =
      .httpError 404 "Entry not found" :=
  absent_get_update_delete_notFound.2.1 initDB 3 7 { title := FieldVal.set "x" }
    (by decide) (by decide) (by intro r hr; exact absurd hr (List.not_mem_nil r))

theorem updTitle_ok_unset {old w : String} (h : updTitle old .unset = .ok w) :
    w = old := by
  simp only [updTitle, Except.ok.injEq] at h
  exact h.symm

theorem updTitle_ok_set {old v w : String} (h : updTitle old (.set v) = .ok w) :
    w = v := by
  simp only [updTitle] at h
  split at h
  · simp only [Except.ok.injEq] at h
    exact h.symm
  · simp at h

/-- Shape of a successful `update_entry`: every parameter bound, and the
returned row is the matched row with the SET clause applied and
`updated_at` stamped with the current time (`social` and `type` are
untouched: had they been explicitly set, binding would have failed). -/
theorem update_ok_shape (db db' : DB) (t entry_id : Nat) (r r' : Row) (u : EntryUpdate)
    (hfind : db.rows.find? (fun x => x.id == entry_id) = some r)
    (hupd : update_entry db t entry_id u = (.ok r', db')) :
    bindUpdateParams u = none ∧
    ∃ newT, updTitle r.title u.title = Except.ok newT ∧
      r' = { r with
             title := newT
             description := updOpt r.description u.description
             profile_image := updOpt r.profile_image u.profile_image
             location := updOpt r.location u.location
             mobiles := updOpt r.mobiles u.mobiles
             reaching_video := updOpt r.reaching_video u.reaching_video
             updated_at := t } := by
  by_cases hemp : u.isEmpty = true
  · rw [update_entry, if_pos hemp] at hupd
    exact absurd (congrArg Prod.fst hupd) (by simp)
  · have hempf : u.isEmpty = false := by revert hemp; cases u.isEmpty <;> simp
    cases hbind : bindUpdateParams u with
    | some msg =>
      rw [update_entry, if_neg hemp, hbind] at hupd
      exact absurd (congrArg Prod.fst hupd) (by simp)
    | none =>
    refine ⟨rfl, ?_⟩
    simp only [update_entry, hempf, Bool.false_eq_true, if_false, hbind, hfind] at hupd
    cases happ : applyUpdate r u t with
    | error e =>
      rw [happ] at hupd
      simp at hupd
    | ok r2 =>
      rw [happ] at hupd
      simp only [Prod.mk.injEq, HResult.ok.injEq] at hupd
      obtain ⟨h1, _⟩ := hupd
      simp only [applyUpdate] at happ
      cases ht : updTitle r.title u.title with
      | error e =>
        rw [ht] at happ
        simp at happ
      | ok newT =>
        rw [ht] at happ
        simp only [Except.ok.injEq] at happ
        exact ⟨newT, rfl, by rw [← h1, ← happ]⟩

def rowA : Row :=
  { id := 1, title := "A", description := none, profile_image := none,
    location := none, mobiles := some [], reaching_video := none,
    social := {}, type := {}, created_at := 1, updated_at := 1 }

def dbOne : DB := { rows := [rowA], nextId := 2 }

def u1 : EntryUpdate := { description := .set "d", location := .setNull }

/-- `rowA` after `update_entry dbOne 9 1 u1`. -/
def rowA9 : Row :=
  { rowA with description := some "d", location := none, updated_at := 9 }

/-- Claim C1 counterexample: a payload that explicitly sets `social` (or
`type`) or sets `mobiles` to a list is not applied to the existing row —
`update_entry` binds these without the `Json(...)` wrapper that
`create_entry` uses, so the statement raises an unhandled binding error
instead of replacing the field. -/
theorem update_jsonb_binding_counterexample :
    (update_entry dbOne 9 1 { social := FieldVal.set { instagram := some "ig" } }).1 =
      .unhandled "cannot adapt type dict" ∧
    (update_entry dbOne 9 1 { mobiles := FieldVal.set ["123"] }).1 =
      .unhandled "column mobiles is of type jsonb but expression is of type text[]" ∧
    (update_entry dbOne 9 1 { social := FieldVal.set { instagram := some "ig" } }).2 =
      dbOne := by
  refine ⟨by decide, by decide, by decide⟩

/-- Claim C1 (amended): for the columns the UPDATE statement can actually
bind — `title`, `description`, `profile_image`, `location`,
`reaching_video`, and `mobiles` sent as explicit `null` — a successful
update applies exactly the explicitly-set fields: unset fields keep their
pre-update values, set fields take the sent value, and explicit `null` is
distinguished from absent (nullable columns are cleared); `social` and
`type` are never modified (a successful update implies they were not
sent), and a payload explicitly setting `social`/`type`, or setting
`mobiles` to a list, always raises an unhandled binding error and never
updates the row. -/
theorem update_applies_exactly_set_fields :
    (∀ (db db' : DB) (t entry_id : Nat) (r r' : Row) (u : EntryUpdate),
      db.rows.find? (fun x => x.id == entry_id) = some r →
      update_entry db t entry_id u = (.ok r', db') →
      ((u.title = .unset → r'.title = r.title) ∧
       (∀ v, u.title = .set v → r'.title = v)) ∧
      ((u.description = .unset → r'.description = r.description) ∧
       (u.description = .setNull → r'.description = none) ∧
       (∀ v, u.description = .set v → r'.description = some v)) ∧
      ((u.profile_image = .unset → r'.profile_image = r.profile_image) ∧
       (u.profile_image = .setNull → r'.profile_image = none) ∧
       (∀ v, u.profile_image = .set v → r'.profile_image = some v)) ∧
      ((u.location = .unset → r'.location = r.location) ∧
       (u.location = .setNull → r'.location = none) ∧
       (∀ v, u.location = .set v → r'.location = some v)) ∧
      ((u.mobiles = .unset → r'.mobiles = r.mobiles) ∧
       (u.mobiles = .setNull → r'.mobiles = none) ∧
       (∀ v, u.mobiles ≠ .set v)) ∧
      ((u.reaching_video = .unset → r'.reaching_video = r.reaching_video) ∧
       (u.reaching_video = .setNull → r'.reaching_video = none) ∧
       (∀ v, u.reaching_video = .set v → r'.reaching_video = some v)) ∧
      (r'.social = r.social ∧ u.social = .unset) ∧
      (r'.type = r.type ∧ u.type = .unset)) ∧
    (∀ (db : DB) (t entry_id : Nat) (u : EntryUpdate),
      (u.social.isSet || u.type.isSet) = true →
      update_entry db t entry_id u = (.unhandled "cannot adapt type dict", db)) ∧
    (∀ (db : DB) (t entry_id : Nat) (u : EntryUpdate) v,
      u.mobiles = FieldVal.set v → u.social = .unset → u.type = .unset →
      update_entry db t entry_id u =
        (.unhandled "column mobiles is of type jsonb but expression is of type text[]",
         db)) := by
  refine ⟨?_, ?_, ?_⟩
  · intro db db' t entry_id r r' u hfind hupd
    obtain ⟨hbind, newT, ht, rfl⟩ := update_ok_shape db db' t entry_id r r' u hfind hupd
    have hsoc : u.social = FieldVal.unset := by
      revert hbind
      rw [bindUpdateParams]
      cases u.social <;> simp [FieldVal.isSet]
    have htyp : u.type = FieldVal.unset := by
      revert hbind
      rw [bindUpdateParams]
      cases u.type <;> simp [FieldVal.isSet]
    have hmob : ∀ v, u.mobiles ≠ FieldVal.set v := by
      intro v hv
      rw [bindUpdateParams, hsoc, htyp, hv] at hbind
      simp [FieldVal.isSet] at hbind
    refine ⟨⟨?_, ?_⟩, ⟨?_, ?_, ?_⟩, ⟨?_, ?_, ?_⟩, ⟨?_, ?_, ?_⟩, ⟨?_, ?_, hmob⟩,
      ⟨?_, ?_, ?_⟩, ⟨rfl, hsoc⟩, ⟨rfl, htyp⟩⟩
    · intro h
      rw [h] at ht
      simpa using updTitle_ok_unset ht
    · intro v h
      rw [h] at ht
      simpa using updTitle_ok_set ht
    all_goals first
      | (intro h; simp [h, updOpt])
      | (intro v h; simp [h, updOpt])
  · intro db t entry_id u hset
    have hempf : u.isEmpty = false := by
      revert hset
      rw [EntryUpdate.isEmpty]
      cases u.social <;> cases u.type <;> simp [FieldVal.isSet]
    simp [update_entry, hempf, bindUpdateParams, hset]
  · intro db t entry_id u v hmob hsoc htyp
    have hempf : u.isEmpty = false := by
      rw [EntryUpdate.isEmpty, hmob]
      simp [FieldVal.isSet]
    simp [update_entry, hempf, bindUpdateParams, hsoc, htyp, hmob, FieldVal.isSet]

theorem update_applies_exactly_set_fields_witness :
    rowA9.title = rowA.title ∧ rowA9.description = some "d" ∧
    rowA9.location = none ∧ rowA9.mobiles = rowA.mobiles ∧
    rowA9.social = rowA.social := by
  have h := update_applies_exactly_set_fields.1 dbOne { rows := [rowA9], nextId := 2 }
    9 1 rowA rowA9 u1 (by decide) (by decide)
  exact ⟨h.1.1 rfl, h.2.1.2.2 "d" rfl, h.2.2.2.1.2.1 rfl, h.2.2.2.2.1.1 rfl,
    h.2.2.2.2.2.2.1.1⟩

/-- Claim C3: a created row has `created_at = updated_at` (both the insertion
time); a successful update never changes `created_at`, and — the database
clock having advanced past the row's `updated_at` — strictly increases
`updated_at`, keeping `created_at ≤ updated_at`. -/
theorem timestamps_invariant :
    (∀ db db' t e row, create_entry db t e = (.ok row, db') →
      row.created_at = t ∧ row.updated_at = t) ∧
    (∀ db db' t entry_id r r' u,
      db.rows.find? (fun x => x.id == entry_id) = some r →
      update_entry db t entry_id u = (.ok r', db') →
      r.created_at ≤ r.updated_at → r.updated_at < t →
      r'.created_at = r.created_at ∧ r.updated_at < r'.updated_at ∧
      r'.created_at ≤ r'.updated_at) := by
  constructor
  · intro db db' t e row h
    rw [create_entry] at h
    cases hh : dbInsert db t e with
    | error e0 =>
      rw [hh] at h
      simp at h
    | ok p =>
      obtain ⟨row0, db0⟩ := p
      rw [hh] at h
      simp only [Prod.mk.injEq, HResult.ok.injEq] at h
      simp only [dbInsert] at hh
      split at hh
      · simp only [Except.ok.injEq, Prod.mk.injEq] at hh
        rw [← h.1, ← hh.1]
        exact ⟨rfl, rfl⟩
      · simp at hh
  · intro db db' t entry_id r r' u hfind hupd hct hlt
    obtain ⟨hbind, newT, ht, rfl⟩ := update_ok_shape db db' t entry_id r r' u hfind hupd
    refine ⟨rfl, by simpa using hlt, ?_⟩
    simp only
    omega

theorem timestamps_invariant_witness :
    rowA9.created_at = rowA.created_at ∧ rowA.updated_at < rowA9.updated_at ∧
    rowA9.created_at ≤ rowA9.updated_at :=
  timestamps_invariant.2 dbOne { rows := [rowA9], nextId := 2 }
    9 1 rowA rowA9 u1 (by decide) (by decide) (by decide) (by decide)


def longTitle : String := String.mk (List.replicate 201 'a')

set_option maxRecDepth 8000 in
/-- Claim C2 counterexample: a payload whose `title` is present but empty is
accepted and inserted (no `min_length` constraint exists on `title`), and a
payload whose title is a 201-character string is not inserted but fails with
the datastore 500, so "fails iff title is missing or empty / inserts for
every non-missing, non-empty title" is false on the code. -/
theorem create_title_validation_counterexample :
    (POST_entries initDB 3 { title := .set "" }).1 =
      .ok { id := 1, title := "", description := none, profile_image := none,
            location := none, mobiles := some [], reaching_video := none,
            social := {}, type := {}, created_at := 3, updated_at := 3 } ∧
    (POST_entries initDB 3 { title := .set longTitle }).1 =
      .httpError 500 "value too long for type character varying(200)" := by
  constructor
  · decide
  · decide

/-- Claim C2 (amended): creating fails with a validation error exactly when
`title` is absent or `null`; for a present `title` of length at most 200
(the empty string included) exactly one row is appended and the response is
the persisted entity with the system-assigned id and timestamps; a present
`title` longer than 200 characters fails with the datastore 500. -/
theorem create_requires_present_title :
    (∀ db t (raw : RawEntryCreate),
      raw.title = FieldVal.unset ∨ raw.title = FieldVal.setNull →
      POST_entries db t raw = (.httpError validationStatus "validation error", db)) ∧
    (∀ db t (raw : RawEntryCreate) v, raw.title = FieldVal.set v → v.length ≤ 200 →
      ∃ row, POST_entries db t raw =
          (.ok row, { rows := db.rows ++ [row], nextId := db.nextId + 1 }) ∧
        row.id = db.nextId ∧ row.title = v ∧ row.created_at = t ∧
        row.updated_at = t) ∧
    (∀ db t (raw : RawEntryCreate) v, raw.title = FieldVal.set v → 200 < v.length →
      (POST_entries db t raw).1 =
        .httpError 500 "value too long for type character varying(200)") := by
  refine ⟨?_, ?_, ?_⟩
  · intro db t raw h
    rcases h with h | h <;> simp [POST_entries, parseEntryCreate, h]
  · intro db t raw v h hlen
    refine ⟨{ id := db.nextId, title := v,
              description := parseOptField none raw.description,
              profile_image := parseOptField none raw.profile_image,
              location := parseOptField none raw.location,
              mobiles := parseOptField (some []) raw.mobiles,
              reaching_video := parseOptField none raw.reaching_video,
              social := (parseOptField (some {}) raw.social).getD {},
              type := (parseOptField (some {}) raw.type).getD {},
              created_at := t, updated_at := t }, ?_, rfl, rfl, rfl, rfl⟩
    simp [POST_entries, parseEntryCreate, h, create_entry, dbInsert, hlen]
  · intro db t raw v h hlen
    have hn : ¬ (v.length ≤ 200) := by omega
    simp [POST_entries, parseEntryCreate, h, create_entry, dbInsert, hn,
      DbError.message]

theorem create_requires_present_title_witness :
    POST_entries initDB 9 {} = (.httpError validationStatus "validation error", initDB) :=
  create_requires_present_title.1 initDB 9 {} (Or.inl rfl)

/-- Claim C7: after a successful create, getting the returned id yields
exactly the create response (same row, untouched state), provided every
pre-existing id is below the SERIAL counter (which holds for every state
the service itself builds). -/
theorem create_then_get_roundtrip (db db' : DB) (t : Nat) (e : EntryCreate) (row : Row)
    (hwf : ∀ x ∈ db.rows, x.id < db.nextId)
    (h : create_entry db t e = (.ok row, db')) :
    get_entry db' row.id = (.ok row, db') := by
  rw [create_entry] at h
  cases hh : dbInsert db t e with
  | error e0 =>
    rw [hh] at h
    simp at h
  | ok p =>
    obtain ⟨row0, db0⟩ := p
    rw [hh] at h
    simp only [Prod.mk.injEq, HResult.ok.injEq] at h
    obtain ⟨h1, h2⟩ := h
    subst h1
    subst h2
    simp only [dbInsert] at hh
    split at hh
    · simp only [Except.ok.injEq, Prod.mk.injEq] at hh
      obtain ⟨hr, hd⟩ := hh
      subst hr
      subst hd
      have hnone : List.find? (fun x => x.id == db.nextId) db.rows = none := by
        rw [List.find?_eq_none]
        intro x hx
        simpa using Nat.ne_of_lt (hwf x hx)
      simp [get_entry, List.find?_append, List.find?, hnone]
    · simp at hh

theorem create_then_get_roundtrip_witness :
    get_entry dbOne rowA.id = (.ok rowA, dbOne) :=
  create_then_get_roundtrip initDB dbOne 1 { title := "A" } rowA
    (by intro x hx; exact absurd hx (List.not_mem_nil x)) (by decide)

def rowB : Row := { rowA with id := 2, title := "B", created_at := 2, updated_at := 2 }

def rowC : Row := { rowA with id := 3, title := "C", created_at := 3, updated_at := 3 }

/-- The state after creating entries titled A, B, C in that order. -/
def dbABC : DB :=
  (create_entry (create_entry (create_entry initDB 1 { title := "A" }).2
    2 { title := "B" }).2 3 { title := "C" }).2

/-- Claim C6: listing defaults to `limit = 100`, `offset = 0`; `limit`
outside [1,1000] or a negative `offset` is a validation failure; the state
is never modified; every successful listing is ordered by descending id;
and after creating A, B, C in that order, `limit=2, offset=0` returns
exactly [C, B]. -/
theorem list_entries_spec :
    (∀ db, get_all_entries db none none = get_all_entries db (some 100) (some 0)) ∧
    (∀ db o, (get_all_entries db (some 0) o).1 =
      .httpError validationStatus "validation error") ∧
    (∀ db o, (get_all_entries db (some 1001) o).1 =
      .httpError validationStatus "validation error") ∧
    (∀ db l, (get_all_entries db l (some (-1))).1 =
      .httpError validationStatus "validation error") ∧
    (∀ db l o, (get_all_entries db l o).2 = db) ∧
    (∀ db l o out, (get_all_entries db l o).1 = .ok out →
      out.Pairwise (fun a b => b.id ≤ a.id)) ∧
    get_all_entries dbABC (some 2) (some 0) = (.ok [rowC, rowB], dbABC) := by
  refine ⟨?_, ?_, ?_, ?_, ?_, ?_, ?_⟩
  · intro db
    rfl
  · intro db o
    simp [get_all_entries, validateLimit]
  · intro db o
    simp [get_all_entries, validateLimit]
  · intro db l
    rcases hv : validateLimit l with _ | lv <;>
      simp [get_all_entries, hv, validateOffset]
  · intro db l o
    rcases hv : validateLimit l with _ | lv <;>
      rcases ho : validateOffset o with _ | ov <;>
      simp [get_all_entries, hv, ho]
  · intro db l o out h
    rcases hv : validateLimit l with _ | lv <;>
      rcases ho : validateOffset o with _ | ov <;>
      simp [get_all_entries, hv, ho] at h
    rw [← h]
    exact List.Pairwise.sublist
      ((List.take_sublist _ _).trans (List.drop_sublist _ _))
      (pairwise_sortByIdDesc db.rows)
  · decide

theorem list_entries_spec_witness :
    List.Pairwise (fun a b : Row => b.id ≤ a.id) [rowC, rowB] :=
  list_entries_spec.2.2.2.2.2.1 dbABC (some 2) (some 0) [rowC, rowB] (by decide)

/-- Claim C8 counterexample: a datastore error inside `update_entry` (setting
`title` to explicit `null` on an existing row violates the NOT NULL
constraint) escapes the handler unhandled — it is not turned into an HTTP
500 response carrying the message, because only `create_entry` has a
try/except. -/
theorem datastore_error_surfacing_counterexample :
    (update_entry dbOne 5 1 { title := FieldVal.setNull }).1 =
      .unhandled "null value in column title violates not-null constraint" := by
  decide

/-- Claim C8 (amended): only `create_entry` catches datastore errors at the
request boundary and surfaces them as an HTTP 500 carrying the underlying
message; in the other endpoints (here `update_entry`) a datastore error
escapes the handler uncaught. -/
theorem only_create_catches_datastore_errors :
    (∀ db t (e : EntryCreate), 200 < e.title.length →
      create_entry db t e =
        (.httpError 500 "value too long for type character varying(200)", db)) ∧
    (∀ db t entry_id (r : Row) (u : EntryUpdate),
      db.rows.find? (fun x => x.id == entry_id) = some r →
      u.title = FieldVal.setNull → bindUpdateParams u = none →
      (update_entry db t entry_id u).1 =
        .unhandled "null value in column title violates not-null constraint") := by
  constructor
  · intro db t e hlen
    have hn : ¬ (e.title.length ≤ 200) := by omega
    simp [create_entry, dbInsert, hn, DbError.message]
  · intro db t entry_id r u hfind htitle hbind
    have hempf : u.isEmpty = false := by
      simp [EntryUpdate.isEmpty, htitle, FieldVal.isSet]
    simp [update_entry, hempf, hbind, hfind, applyUpdate, updTitle, htitle,
      DbError.message]

set_option maxRecDepth 8000 in
theorem only_create_catches_datastore_errors_witness :
    create_entry initDB 0 { title := longTitle } =
      (.httpError 500 "value too long for type character varying(200)", initDB) :=
  only_create_catches_datastore_errors.1 initDB 0 { title := longTitle } (by decide)

def failConnect : Nat → Except String Unit := fun _ => .error "connection refused"

/-- Claim C9 counterexample: when every connection attempt fails,
`get_db_connection` does raise the last error, but at startup
`create_tables` catches it and only logs an "Error creating tables"
message — nothing is re-raised and startup proceeds, so no fatal startup
error is surfaced. -/
theorem fatal_startup_error_counterexample :
    (get_db_connection (some "postgresql://db") failConnect).result =
      .error "connection refused" ∧
    create_tables (some "postgresql://db") failConnect =
      some "Error creating tables: connection refused" := by
  decide

/-- Claim C9 (amended): on connection failure the service makes 3 connection
attempts with a fixed 5-second sleep between consecutive attempts and then
raises the last connection error; at startup this error is caught by the
table-creation step and merely logged, and startup proceeds — it is not
fatal. -/
theorem connection_retry_spec (connect : Nat → Except String Unit) (url : String)
    (e0 e1 e2 : String)
    (h0 : connect 0 = .error e0) (h1 : connect 1 = .error e1)
    (h2 : connect 2 = .error e2) :
    get_db_connection (some url) connect =
      { result := .error e2, attempts := 3, sleeps := [5, 5] } ∧
    create_tables (some url) connect =
      some ("Error creating tables: " ++ e2) := by
  have hmain : get_db_connection (some url) connect =
      { result := .error e2, attempts := 3, sleeps := [5, 5] } := by
    simp [get_db_connection, retryLoop, h0, h1, h2]
  refine ⟨hmain, ?_⟩
  simp [create_tables, hmain]

theorem connection_retry_spec_witness :
    get_db_connection (some "url") (fun _ => Except.error "refused") =
      { result := .error "refused", attempts := 3, sleeps := [5, 5] } ∧
    create_tables (some "url") (fun _ => Except.error "refused") =
      some ("Error creating tables: " ++ "refused") :=
  connection_retry_spec (fun _ => Except.error "refused") "url"
    "refused" "refused" "refused" rfl rfl rfl

